import Mathlib

/-!
Verification development for the portfolio NAV / factor-regression backend
(`src/backend/app.py`).  Python values are embedded shallowly: floats become
rationals (with an explicit constructor for the non-finite IEEE values where
the code inspects them), `None` becomes `Option.none`, raised exceptions
become `Except.error`, SQLite tables become lists of row structures, and the
module-level caches become explicit state passed in and out of the endpoint
bodies.
-/

namespace Spec2Proof

set_option maxRecDepth 16000

/- ------------------------------------------------------------------------
JSON sanitisation (`_is_bad_number`, `sanitize_for_json`)
------------------------------------------------------------------------ -/
/-- Model of a Python float: either an exact finite value (a rational) or one
of the non-finite IEEE values NaN, +inf, -inf. -/
inductive PFloat where
  | finite (q : ℚ)
  | nan
  | inf
  | neginf
deriving DecidableEq

/-- Model of `_is_bad_number`: true exactly on NaN and the two infinities. -/
def _is_bad_number : PFloat → Bool
  | .finite _ => false
  | .nan => true
  | .inf => true
  | .neginf => true

/-- Model of the Python values reaching `sanitize_for_json`: `None`, floats
(numpy floating scalars behave as their `.item()` float), ints, strings,
bools, dicts, lists and tuples. -/
inductive PyObj where
  | pynone
  | float (f : PFloat)
  | int (n : ℤ)
  | str (s : String)
  | bool (b : Bool)
  | dict (kvs : List (String × PyObj))
  | list (xs : List PyObj)
  | tuple (xs : List PyObj)

mutual

/-- Model of `sanitize_for_json`: NaN/inf floats become `None`; finite
floats, ints, strings, bools and `None` pass through unchanged; dicts and
lists recurse; a tuple is rebuilt as a list (the source returns a list
comprehension for both). -/
def sanitize_for_json : PyObj → PyObj
  | .pynone => .pynone
  | .float f => if _is_bad_number f then .pynone else .float f
  | .int n => .int n
  | .str s => .str s
  | .bool b => .bool b
  | .dict kvs => .dict (sanitizeKVs kvs)
  | .list xs => .list (sanitizeList xs)
  | .tuple xs => .list (sanitizeList xs)

/-- Elementwise sanitisation of a list of values. -/
def sanitizeList : List PyObj → List PyObj
  | [] => []
  | x :: xs => sanitize_for_json x :: sanitizeList xs

/-- Valuewise sanitisation of the entries of a dict. -/
def sanitizeKVs : List (String × PyObj) → List (String × PyObj)
  | [] => []
  | kv :: kvs => (kv.1, sanitize_for_json kv.2) :: sanitizeKVs kvs

end

mutual

/-- Whether a value contains a NaN or infinite float anywhere inside. -/
def hasBadNumber : PyObj → Bool
  | .pynone => false
  | .float f => _is_bad_number f
  | .int _ => false
  | .str _ => false
  | .bool _ => false
  | .dict kvs => hasBadKVs kvs
  | .list xs => hasBadList xs
  | .tuple xs => hasBadList xs

/-- Whether any value in a list contains a NaN or infinite float. -/
def hasBadList : List PyObj → Bool
  | [] => false
  | x :: xs => hasBadNumber x || hasBadList xs

/-- Whether any entry value of a dict contains a NaN or infinite float. -/
def hasBadKVs : List (String × PyObj) → Bool
  | [] => false
  | kv :: kvs => hasBadNumber kv.2 || hasBadKVs kvs

end

/- ------------------------------------------------------------------------
Max drawdown (`_max_drawdown`)
------------------------------------------------------------------------ -/
/-- Running maximum continuing from an already-seen maximum `m`. -/
def cummaxFrom (m : ℚ) : List ℚ → List ℚ
  | [] => []
  | x :: xs => max m x :: cummaxFrom (max m x) xs

/-- Model of `equity.cummax()`: the running maximum of the series. -/
def cummax : List ℚ → List ℚ
  | [] => []
  | x :: xs => x :: cummaxFrom x xs

/-- Minimum of a list of rationals, `none` on the empty list (pandas
`.min()` of an empty series is NaN). -/
def listMin : List ℚ → Option ℚ
  | [] => none
  | x :: xs =>
    match listMin xs with
    | none => some x
    | some m => some (min x m)

/-- Model of `_max_drawdown`: minimum over time of
`equity / equity.cummax() - 1`. -/
def _max_drawdown (equity : List ℚ) : Option ℚ :=
  listMin (List.zipWith (fun e p => e / p - 1) equity (cummax equity))

/-- Peak of the first `t+1` elements of the series (spec-side formulation of
the running-peak NAV at time `t`). -/
def prefixPeak (l : List ℚ) (t : ℕ) : ℚ :=
  match l.take (t + 1) with
  | [] => 0
  | x :: xs => xs.foldl max x

/-- Spec-side drawdown: the minimum over all times `t` of
`NAV(t) / (peak of NAV over times up to t) - 1`. -/
def maxDrawdownSpec (l : List ℚ) : Option ℚ :=
  listMin ((List.range l.length).map (fun t => l.getD t 0 / prefixPeak l t - 1))

/- ------------------------------------------------------------------------
Persistent NAV store (`portfolio_prices` table, `_db_upsert`)
------------------------------------------------------------------------ -/
/-- Row of the `portfolio_prices` table: `(date, portfolio_name, nav)` with
composite primary key `(date, portfolio_name)`. -/
structure NavRow where
  date : String
  portfolio_name : String
  nav : ℚ
deriving DecidableEq

/-- Primary key of a NAV row. -/
def navKey (r : NavRow) : String × String := (r.date, r.portfolio_name)

/-- Whether two rows collide on the `(date, portfolio_name)` primary key. -/
def sameKey (x r : NavRow) : Bool := decide (navKey x = navKey r)

/-- Effect of one `INSERT OR REPLACE INTO portfolio_prices` statement on the
table: the row with a colliding primary key (if any) is deleted and the new
row inserted. -/
def insertOrReplace (st : List NavRow) (r : NavRow) : List NavRow :=
  st.filter (fun x => !sameKey x r) ++ [r]

/-- Model of `_db_upsert`: `executemany` applies the `INSERT OR REPLACE`
statement to each row of the batch in order, in one transaction. -/
def _db_upsert (st : List NavRow) (rows : List NavRow) : List NavRow :=
  rows.foldl insertOrReplace st

/-- Whether some row of `rows` has the same primary key as `x`. -/
def hasKey (rows : List NavRow) (x : NavRow) : Bool :=
  rows.any (fun r => sameKey r x)

/-- Subsequence of a batch keeping, for each primary key, only the last
row written for it (in order of last write). -/
def dedupLast : List NavRow → List NavRow
  | [] => []
  | r :: rs => if hasKey rs r then dedupLast rs else r :: dedupLast rs

/- ------------------------------------------------------------------------
Response caches and the cached read endpoints (`portfolio_series`,
`outlook`).  The module-level dict caches become explicit state; the result
of `_build_payload_from_db()` / `load_outlook()` at the instant of the call
is passed in as an `Except` value (an exception becomes `Except.error`).
------------------------------------------------------------------------ -/
/-- TTL of the portfolio-series cache, `SERIES_CACHE_SECONDS = 60`. -/
def SERIES_CACHE_SECONDS : ℚ := 60

/-- TTL of the outlook cache, `OUTLOOK_CACHE_SECONDS = 300`. -/
def OUTLOOK_CACHE_SECONDS : ℚ := 300

/-- State of `_series_cache`: `{"ts": ..., "payload": ...}`. -/
structure SeriesCache (α : Type) where
  ts : ℚ
  payload : Option α
deriving DecidableEq

/-- State of `_outlook_cache`: `{"ts": ..., "payload": ..., "last_error": ...}`. -/
structure OutlookCache (α : Type) where
  ts : ℚ
  payload : Option α
  last_error : Option String
deriving DecidableEq

/-- Model of the `portfolio_series` endpoint body.  `build` is the outcome
`_build_payload_from_db()` would produce at this call.  Returns the response
(or the propagated exception) together with the new cache state.  Note the
source has no `try` around the rebuild: a failure propagates and the cache
is left untouched. -/
def portfolio_series {α : Type} (now : ℚ) (build : Except String α)
    (c : SeriesCache α) : Except String α × SeriesCache α :=
  match c.payload with
  | some p =>
    if now - c.ts < SERIES_CACHE_SECONDS then (Except.ok p, c)
    else
      match build with
      | Except.ok payload => (Except.ok payload, { ts := now, payload := some payload })
      | Except.error e => (Except.error e, c)
  | none =>
    match build with
    | Except.ok payload => (Except.ok payload, { ts := now, payload := some payload })
    | Except.error e => (Except.error e, c)

/-- Model of the `outlook` endpoint body.  `load` is the outcome
`load_outlook()` would produce at this call.  On failure with a previous
payload present, the stale payload is returned and only `last_error` is
updated. -/
def outlook {α : Type} (now : ℚ) (load : Except String α)
    (c : OutlookCache α) : Except String α × OutlookCache α :=
  match c.payload with
  | some p =>
    if now - c.ts < OUTLOOK_CACHE_SECONDS then (Except.ok p, c)
    else
      match load with
      | Except.ok payload =>
        (Except.ok payload, { ts := now, payload := some payload, last_error := none })
      | Except.error e => (Except.ok p, { c with last_error := some e })
  | none =>
    match load with
    | Except.ok payload =>
      (Except.ok payload, { ts := now, payload := some payload, last_error := none })
    | Except.error e => (Except.error e, { c with last_error := some e })

/- ------------------------------------------------------------------------
Health endpoint (`health`)
------------------------------------------------------------------------ -/
/-- State of the module-global `_sync_status` record. -/
structure SyncStatus where
  ok : Option Bool
  rows_upserted : ℕ
  latest_date : Option String
  error : Option String
  ts : ℚ

/-- State of the module-global `_ff5_sync_status` record. -/
structure FF5SyncStatus where
  ok : Option Bool
  ff5_rows : ℕ
  reg_portfolios : ℕ
  error : Option String
  ts : ℚ

/-- Nested `last_nav_sync` block of the health response. -/
structure NavSyncReport where
  ok : Option Bool
  rows_upserted : ℕ
  latest_date : Option String
  error : Option String

/-- Nested `last_ff5_sync` block of the health response. -/
structure FF5SyncReport where
  ok : Option Bool
  ff5_rows : ℕ
  reg_portfolios : ℕ
  error : Option String

/-- Health response returned by `GET /api/health`. -/
structure HealthResponse where
  ok : Bool
  db_latest_date : Option String
  last_nav_sync : NavSyncReport
  last_ff5_sync : FF5SyncReport
  statsmodels_available : Bool
  series_cache_age_s : Option ℚ
  outlook_cached : Bool

/-- Model of the `health` endpoint body.  The top-level `"ok"` field is the
literal `True`; the last-refresh outcomes appear only in the nested
`last_nav_sync` / `last_ff5_sync` blocks.  (The source rounds the cache age
to one decimal for display; the rounding is omitted here.) -/
def health {α β : Type} (dbLatest : Option String) (s : SyncStatus)
    (f : FF5SyncStatus) (statsmodelsOk : Bool) (sc : SeriesCache α)
    (oc : OutlookCache β) (now : ℚ) : HealthResponse :=
  { ok := true
    db_latest_date := dbLatest
    last_nav_sync :=
      { ok := s.ok, rows_upserted := s.rows_upserted,
        latest_date := s.latest_date, error := s.error }
    last_ff5_sync :=
      { ok := f.ok, ff5_rows := f.ff5_rows,
        reg_portfolios := f.reg_portfolios, error := f.error }
    statsmodels_available := statsmodelsOk
    series_cache_age_s := if sc.payload.isSome then some (now - sc.ts) else none
    outlook_cached := oc.payload.isSome }

/- ------------------------------------------------------------------------
Portfolio catalog, ticker normalisation, and the NAV pipeline
(`PORTFOLIOS`, `yahoo_ticker`, `_compute_nav_dataframe`)
------------------------------------------------------------------------ -/
/-- Initial capital constant `INITIAL_CAPITAL = 100.0`. -/
def INITIAL_CAPITAL : ℚ := 100

/-- The fixed portfolio catalog, transcribed from the `PORTFOLIOS` literal. -/
def PORTFOLIOS : List (String × List (String × ℚ)) := [
  ("SPY", [("SPY", 1.0)]),
  ("ChatGPT-5.2", [
    ("SPY", 0.15), ("QQQ", 0.10), ("VIG", 0.05), ("VEA", 0.10), ("EEM", 0.10),
    ("EWY", 0.05), ("IJR", 0.10), ("XLU", 0.05), ("XLP", 0.05), ("GLD", 0.06),
    ("GSG", 0.04), ("AGG", 0.10), ("HYG", 0.05)]),
  ("ChatGPT-5.2 DeepResearch", [
    ("SPY", 0.20), ("QQQ", 0.15), ("AVUV", 0.10), ("MTUM", 0.10), ("QUAL", 0.10),
    ("VEA", 0.10), ("VWO", 0.05), ("GLD", 0.05), ("DBC", 0.05), ("DBMF", 0.05),
    ("IEF", 0.05)]),
  ("Claude Sonnet 4.5", [
    ("VBR", 0.22), ("NVDA", 0.18), ("MSFT", 0.16), ("VTWG", 0.14),
    ("AVGO", 0.08), ("GOOGL", 0.07), ("GLD", 0.10), ("VGIT", 0.05)]),
  ("Gemini-3", [
    ("VGT", 0.35), ("KBWB", 0.20), ("SLV", 0.15), ("XLI", 0.15),
    ("TLT", 0.10), ("CASH", 0.05)]),
  ("Meta AI", [
    ("MSFT", 0.10), ("GOOGL", 0.10), ("NVDA", 0.10), ("JNJ", 0.10),
    ("KO", 0.10), ("VOO", 0.10), ("CSJ", 0.20), ("GLD", 0.10), ("VGLT", 0.10)]),
  ("Grok", [
    ("QQQ", 0.30), ("AVUV", 0.15), ("MTUM", 0.15), ("VWO", 0.15),
    ("VNQ", 0.10), ("GLD", 0.10), ("TLT", 0.05)]),
  ("DeepSeek-V3", [
    ("AVUV", 0.15), ("IMTM", 0.10), ("USMV", 0.10), ("QUAL", 0.10),
    ("DBMF", 0.15), ("KMLM", 0.10), ("DBC", 0.10), ("VNQI", 0.05),
    ("VTIP", 0.05), ("BIL", 0.05), ("ARKQ", 0.05)]),
  ("Meta AI Thinking", [
    ("NVDA", 0.15), ("MSFT", 0.15), ("CRWD", 0.10), ("IWM", 0.10),
    ("BRK.B", 0.10), ("JPM", 0.10), ("VNQ", 0.10),
    ("GLD", 0.10), ("CCJ", 0.05), ("LNG", 0.05)]),
  ("Grok-Expert", [
    ("VTI", 0.25), ("AVUV", 0.15), ("VXUS", 0.10), ("VWO", 0.10),
    ("QQQ", 0.10), ("BND", 0.10), ("VNQ", 0.10), ("GLD", 0.10)]),
  ("DeepSeek-DeepThink", [
    ("AVUV", 0.15), ("SPGP", 0.10), ("XLF", 0.08), ("XLI", 0.07),
    ("AVDV", 0.08), ("INDA", 0.07), ("VCIT", 0.10), ("TFLO", 0.07),
    ("HYG", 0.03), ("VNQ", 0.05), ("DBC", 0.03), ("URA", 0.02),
    ("KMLM", 0.05), ("JEPI", 0.05), ("SGOV", 0.05)]),
  ("Gemini-3 DeepResearch", [
    ("MADE", 0.20), ("DRLL", 0.15), ("QQQ", 0.15), ("VIG", 0.10),
    ("VXUS", 0.10), ("EWJ", 0.10), ("GLD", 0.10), ("BKLN", 0.10)])]

/-- Python `str.upper()`: uppercase every character (the embedding works on
the character list so that concrete evaluation reduces in the kernel). -/
def pyUpper (s : String) : String := ⟨s.data.map Char.toUpper⟩

/-- Python `str.strip()`: remove leading and trailing whitespace. -/
def pyStrip (s : String) : String :=
  ⟨((s.data.dropWhile Char.isWhitespace).reverse.dropWhile Char.isWhitespace).reverse⟩

/-- Python `t.replace(".", "-")` for the single-character pattern used by
the source: rewrite every dot to a dash. -/
def replaceDotDash (s : String) : String :=
  ⟨s.data.map (fun c => if c == '.' then '-' else c)⟩

/-- Lexicographic order on character lists by code point. -/
def charListLe : List Char → List Char → Bool
  | [], _ => true
  | _ :: _, [] => false
  | a :: as, b :: bs =>
    if a.toNat < b.toNat then true
    else if b.toNat < a.toNat then false
    else charListLe as bs

/-- Python string ordering (lexicographic by code point). -/
def pyStrLe (a b : String) : Bool := charListLe a.data b.data

/-- Ordered insert for a stable insertion sort. -/
def insertLe {α : Type} (le : α → α → Bool) (x : α) : List α → List α
  | [] => [x]
  | y :: ys => if le x y then x :: y :: ys else y :: insertLe le x ys

/-- Stable insertion sort modelling Python `sorted` / pandas `sort_index`. -/
def sortByLe {α : Type} (le : α → α → Bool) (l : List α) : List α :=
  l.foldr (insertLe le) []

/-- Model of `yahoo_ticker`: strip whitespace, pass the literal CASH
pseudo-symbol through unchanged, rewrite the dot class separator to a dash
for everything else. -/
def yahoo_ticker (t : String) : String :=
  let s := pyStrip t
  if pyUpper s = "CASH" then s else replaceDotDash s

/-- Sorted set of original (non-CASH) catalog symbols (`all_original`). -/
def all_original : List String :=
  sortByLe pyStrLe
    (((PORTFOLIOS.map (fun p => p.2.map Prod.fst)).flatten.filter
      (fun t => !(pyUpper t == "CASH"))).dedup)

/-- Sorted set of normalized quote symbols requested from the market
(`yahoo_tickers`). -/
def yahoo_tickers : List String :=
  sortByLe pyStrLe ((all_original.map yahoo_ticker).dedup)

/-- Raw price table as returned by the market-data client: named columns and
one row per date, a cell being `none` where the response has no price (NaN).
Cells of row `r` align positionally with `cols`. -/
structure RawTable where
  cols : List String
  rows : List (String × List (Option ℚ))

/-- Value of column `name` at one row of a raw table (`none` when the column
is absent). -/
def rawCell (cols : List String) (cells : List (Option ℚ)) (name : String) : Option ℚ :=
  match cols.findIdx? (fun c => c == name) with
  | some j => cells.getD j none
  | none => none

/-- Model of the `close` construction: keep, of the normalized catalog
universe, exactly the symbols present in the raw response, in catalog
(sorted) order, re-indexed over the raw date index. -/
def selectClose (raw : RawTable) : RawTable :=
  let keep := yahoo_tickers.filter (fun yt => raw.cols.contains yt)
  { cols := keep,
    rows := raw.rows.map (fun r => (r.1, keep.map (fun yt => rawCell raw.cols r.2 yt))) }

/-- Columns to keep under `dropna(axis=1, how="all")`: a column survives iff
some row holds a value in it. -/
def colKeepMask (t : RawTable) : List Bool :=
  (List.range t.cols.length).map (fun j => t.rows.any (fun r => (r.2.getD j none).isSome))

/-- Restriction of a list to the positions marked true in a mask. -/
def applyMask {α : Type} (mask : List Bool) (l : List α) : List α :=
  (List.zip mask l).filterMap (fun bx => if bx.1 then some bx.2 else none)

/-- Model of `close.dropna(axis=1, how="all")`: drop columns that are NaN on
every date. -/
def dropAllNoneCols (t : RawTable) : RawTable :=
  let mask := colKeepMask t
  { cols := applyMask mask t.cols,
    rows := t.rows.map (fun r => (r.1, applyMask mask r.2)) }

/-- Model of `.sort_index()`: sort the rows by date ascending. -/
def sortByDate (t : RawTable) : RawTable :=
  { t with rows := sortByLe (fun a b => pyStrLe a.1 b.1) t.rows }

/-- Forward fill: a missing cell takes the last seen value of its column. -/
def ffillRows : List (Option ℚ) → List (String × List (Option ℚ)) →
    List (String × List (Option ℚ))
  | _, [] => []
  | prev, r :: rs =>
    let filled := List.zipWith (fun p c => match c with
      | some v => some v
      | none => p) prev r.2
    (r.1, filled) :: ffillRows filled rs

/-- Model of `.ffill()` over the whole table. -/
def ffillTable (t : RawTable) : RawTable :=
  { cols := t.cols, rows := ffillRows (List.replicate t.cols.length none) t.rows }

/-- Daily simple return table: one row per date, all cells defined (the
source forces row 0 to zero, replaces inf by NaN and fills NaN with zero). -/
structure RetTable where
  cols : List String
  rows : List (String × List ℚ)

/-- One cell of `close.pct_change()` followed by
`.replace([inf, -inf], nan)`, `iloc[0] = 0` and `.fillna(0)`: a return is
`b / a - 1` when the previous and current (forward-filled) prices exist with
`a` nonzero, and exactly 0 otherwise (first row, missing data, or an
infinite/NaN ratio). -/
def pctCell (p c : Option ℚ) : ℚ :=
  match p, c with
  | some a, some b => if a = 0 then 0 else b / a - 1
  | _, _ => 0

/-- Rowwise percentage change against the previous row. -/
def pctRows : List (Option ℚ) → List (String × List (Option ℚ)) →
    List (String × List ℚ)
  | _, [] => []
  | prev, r :: rs => (r.1, List.zipWith pctCell prev r.2) :: pctRows r.2 rs

/-- Model of the return-table construction inside `_compute_nav_dataframe`:
build close prices over the available normalized symbols, drop all-NaN
columns, sort by date, forward-fill, then produce daily returns with a
forced-zero first row; the data-unavailable failures of the source become
`Except.error`. -/
def _compute_returns (raw : RawTable) : Except String RetTable :=
  if raw.rows.isEmpty then Except.error "yfinance returned no data."
  else
    let close1 := dropAllNoneCols (selectClose raw)
    if close1.cols.isEmpty then Except.error "Close prices empty after filtering."
    else
      let close3 := ffillTable (sortByDate close1)
      Except.ok { cols := close3.cols,
                  rows := pctRows (List.replicate close3.cols.length none) close3.rows }

/-- Daily contribution of one portfolio on one return row: iterate the
declared holdings, skip the literal CASH pseudo-symbol and zero weights, and
accumulate `weight * return` for each holding whose normalized symbol is a
column of the return table. -/
def navRowContrib (cols : List String) (cells : List ℚ)
    (weights : List (String × ℚ)) : ℚ :=
  weights.foldl (fun (acc : ℚ) (wt : String × ℚ) =>
    if pyUpper wt.1 = "CASH" then acc
    else if wt.2 = 0 then acc
    else
      match cols.findIdx? (fun c => c == yahoo_ticker wt.1) with
      | some j => acc + wt.2 * cells.getD j 0
      | none => acc) 0

/-- Cumulative product NAV: starting from capital `c`, each day multiplies
by one plus that day's contribution. -/
def cumprodFrom (c : ℚ) : List ℚ → List ℚ
  | [] => []
  | r :: rs => c * (1 + r) :: cumprodFrom (c * (1 + r)) rs

/-- NAV curve of one portfolio over a return table:
`INITIAL_CAPITAL * (1 + contrib).cumprod()`. -/
def navColumn (rt : RetTable) (weights : List (String × ℚ)) : List ℚ :=
  cumprodFrom INITIAL_CAPITAL (rt.rows.map (fun r => navRowContrib rt.cols r.2 weights))

/-- Per-portfolio NAV table over a shared date index. -/
structure NavTable where
  dates : List String
  series : List (String × List ℚ)

/-- Model of `_compute_nav_dataframe`: returns over the downloaded raw price
table, then one NAV curve per catalog portfolio; an empty result raises. -/
def _compute_nav_dataframe (raw : RawTable) : Except String NavTable :=
  match _compute_returns raw with
  | Except.error e => Except.error e
  | Except.ok rt =>
    let cum : NavTable := { dates := rt.rows.map Prod.fst,
                            series := PORTFOLIOS.map (fun p => (p.1, navColumn rt p.2)) }
    if cum.dates.isEmpty || cum.series.isEmpty then Except.error "No portfolios computed."
    else Except.ok cum

/-- Value of the return-table column for symbol `s` at row `t` (0 when the
symbol is not a column of the table). -/
def retAt (rt : RetTable) (t : ℕ) (s : String) : ℚ :=
  match rt.cols.findIdx? (fun c => c == s) with
  | some j => (rt.rows.getD t ("", [])).2.getD j 0
  | none => 0

/-- Spec-side daily portfolio contribution at row `t`: the sum, over the
declared holdings that are not the literal CASH, have nonzero weight, and
whose normalized symbol is present in the return table, of
`weight * return`; all other holdings contribute exactly 0 and no weight is
renormalized. -/
def specContrib (rt : RetTable) (t : ℕ) (weights : List (String × ℚ)) : ℚ :=
  (weights.map (fun wt =>
    if pyUpper wt.1 ≠ "CASH" ∧ wt.2 ≠ 0 ∧ yahoo_ticker wt.1 ∈ rt.cols
    then wt.2 * retAt rt t (yahoo_ticker wt.1) else 0)).sum

/-- Concrete two-day, one-symbol raw price table used as a witness input. -/
def rawW : RawTable :=
  { cols := ["SPY"],
    rows := [("2026-02-02", [some 100]), ("2026-02-03", [some 110])] }

/-- Return table computed by the pipeline on `rawW`. -/
def rtW : RetTable :=
  match _compute_returns rawW with
  | Except.ok rt => rt
  | Except.error _ => { cols := [], rows := [] }

/-- NAV table computed by the pipeline on `rawW`. -/
def navW : NavTable :=
  match _compute_nav_dataframe rawW with
  | Except.ok nav => nav
  | Except.error _ => { dates := [], series := [] }

/- ------------------------------------------------------------------------
Statistics engine (`_compute_stats`)
------------------------------------------------------------------------ -/
/-- Trading-day count used for annualization, `TRADING_DAYS = 252`. -/
def TRADING_DAYS : ℕ := 252

/-- Model of pandas `Series.pct_change()` (with its default pad fill) for one
column, composed with the source's `replace([inf, -inf], nan)`: position `t`
is `filled(t) / filled(t-1) - 1` where `filled` is the forward-filled
column; the first position, positions before any value exists, and ratios
with a zero denominator are NaN (`none`). -/
def pctChangePad : Option ℚ → List (Option ℚ) → List (Option ℚ)
  | _, [] => []
  | prev, c :: cs =>
    let filled := match c with
      | some v => some v
      | none => prev
    (match prev, filled with
     | some a, some b => if a = 0 then none else some (b / a - 1)
     | _, _ => none) :: pctChangePad filled cs

/-- Model of `eq = cum[name].replace([inf,-inf], nan).dropna()` together with
its date index: the valid (date, value) points of a column. -/
def validPoints (idx : List ℤ) (col : List (Option ℚ)) : List (ℤ × ℚ) :=
  (idx.zip col).filterMap (fun dv => dv.2.map (fun v => (dv.1, v)))

/-- Model of `dr = daily_ret[name].replace([inf,-inf], nan).dropna()`: the
defined daily returns of a column. -/
def validReturns (col : List (Option ℚ)) : List ℚ :=
  (pctChangePad none col).filterMap id

/-- Arithmetic mean of a list of rationals. -/
def sampleMean (l : List ℚ) : ℚ := l.sum / l.length

/-- Sample variance with ddof 1, the square of pandas `Series.std`. -/
def sampleVar (l : List ℚ) : ℚ :=
  (l.map (fun x => (x - sampleMean l) ^ 2)).sum / ((l.length : ℚ) - 1)

/-- Squared surrogate of the code value `std = dr.std() if len(dr) >= 2 else
0.0`: since `std` is the square root of the sample variance, `std > 0` holds
iff this quantity is positive. -/
def stdSq (dr : List ℚ) : ℚ := if 2 ≤ dr.length then sampleVar dr else 0

/-- One entry of the stats dict.  `vol`, `sharpe` and `cagr` are `none`
exactly when the source stores `None`; their numeric payloads are rational
surrogates of the float values the source computes with `sqrt(252)` or a
fractional power (`vol` holds the annualized variance `std^2 * 252`,
`sharpe` holds `mean * 252`, `cagr` holds the ratio `last / first`). -/
structure StatsEntry where
  total_return : ℚ
  cagr : Option ℚ
  vol : Option ℚ
  max_drawdown : Option ℚ
  sharpe : Option ℚ
  start_value : ℚ
  end_value : ℚ
deriving DecidableEq

/-- Model of one loop iteration of `_compute_stats` for a single column with
date index `idx` (dates as day numbers): `none` when the column has fewer
than 2 valid points and is skipped. -/
def _compute_stats_one (idx : List ℤ) (col : List (Option ℚ)) : Option StatsEntry :=
  let eq := validPoints idx col
  if eq.length < 2 then none
  else
    let dr := validReturns col
    let first := (eq.headD (0, 0)).2
    let last := (eq.getLastD (0, 0)).2
    let days : ℤ := (eq.getLastD (0, 0)).1 - (eq.headD (0, 0)).1
    let years : ℚ := if 0 < days then (days : ℚ) / (1461 / 4) else 0
    let std2 := stdSq dr
    some
      { total_return := last / first - 1
        cagr := if 0 < years ∧ 0 < first ∧ 0 < last then some (last / first) else none
        vol := if 0 < std2 then some (std2 * TRADING_DAYS) else none
        max_drawdown := _max_drawdown (eq.map Prod.snd)
        sharpe := if 0 < std2 then some (sampleMean dr * TRADING_DAYS) else none
        start_value := first
        end_value := last }

/-- Model of `_compute_stats` over the whole NAV table: one entry per column
that has at least 2 valid points, in column order. -/
def _compute_stats (idx : List ℤ) (cum : List (String × List (Option ℚ))) :
    List (String × StatsEntry) :=
  cum.filterMap (fun c => (_compute_stats_one idx c.2).map (fun e => (c.1, e)))

/-- Concrete index and column for the stats witness. -/
def idxW : List ℤ := [0, 1]

/-- Concrete flat NAV column (two equal points, one zero return). -/
def colW : List (Option ℚ) := [some 1, some 1]

/-- Stats entry computed on the concrete flat column. -/
def entryW : StatsEntry :=
  match _compute_stats_one idxW colW with
  | some e => e
  | none =>
    { total_return := 0, cagr := none, vol := none, max_drawdown := none,
      sharpe := none, start_value := 0, end_value := 0 }

/- ------------------------------------------------------------------------
Factor regression engine (`_run_ff5_regressions`)
------------------------------------------------------------------------ -/
/-- Portfolio inception date, `START_DATE = "2026-02-02"`. -/
def START_DATE : String := "2026-02-02"

/-- Historical lookback start for the FF5 regression,
`FF5_LOOKBACK_DATE = "2024-01-01"`. -/
def FF5_LOOKBACK_DATE : String := "2024-01-01"

/-- Row of the `ff5_daily` table (values stored in percent). -/
structure FF5Row where
  date : String
  mkt_rf : ℚ
  smb : ℚ
  hml : ℚ
  rmw : ℚ
  cma : ℚ
  rf : ℚ
deriving DecidableEq

/-- Row of the `ff5_regressions` table. -/
structure RegRow where
  portfolio_name : String
  alpha : ℚ
  beta_mkt : ℚ
  beta_smb : ℚ
  beta_hml : ℚ
  beta_rmw : ℚ
  beta_cma : ℚ
  r_squared : ℚ
  n_obs : ℤ
  computed_at : String
deriving DecidableEq

/-- Persistent database state visible to the regression engine: the three
SQLite tables. -/
structure RegDB where
  nav : List NavRow
  ff5_daily : List FF5Row
  ff5_regressions : List RegRow
deriving DecidableEq

/-- Result of one OLS fit (`sm.OLS(y, X).fit()`): intercept, the five factor
slopes, R² and the observation count. -/
structure FitRes where
  alpha : ℚ
  beta_mkt : ℚ
  beta_smb : ℚ
  beta_hml : ℚ
  beta_rmw : ℚ
  beta_cma : ℚ
  r_squared : ℚ
  n_obs : ℤ
deriving DecidableEq

/-- An OLS solver: given the aligned (excess return, factor row) samples it
returns the fitted coefficients, or `none` when the fit raises (the source
catches the exception and skips the portfolio).  The regression engine is
verified for every solver. -/
def OLSFit : Type := List (ℚ × List ℚ) → Option FitRes

/-- Outcome dict of `_run_ff5_regressions`: either `{"ok": False, "error":
...}` (with `"n_common"` on the insufficient-overlap path) or `{"ok": True,
"portfolios_computed": ..., "n_obs": ..., "date_range": ...}`. -/
inductive RegOutcome where
  | failure (error : String) (n_common : Option ℕ)
  | success (portfolios_computed : ℕ) (n_obs : ℕ) (date_range : String)
deriving DecidableEq

/-- Model of `SELECT ... FROM ff5_daily ORDER BY date`. -/
def ff5Sorted (db : RegDB) : List FF5Row :=
  sortByLe (fun a b => pyStrLe a.date b.date) db.ff5_daily

/-- Model of pandas `pct_change` on a complete (no-NaN) NAV series with the
first row dropped (`nav_df.pct_change().iloc[1:]` then
`replace([inf,-inf], nan)`): entry `t` is `nav(t+1)/nav(t) - 1`, `none`
where the previous NAV is zero. -/
def pctChangeTotal : List ℚ → List (Option ℚ)
  | [] => []
  | [_] => []
  | a :: b :: rest => (if a = 0 then none else some (b / a - 1)) :: pctChangeTotal (b :: rest)

/-- Common trading days: the intersection of the NAV-return date index with
the FF5 date index (unique values, in return-index order, which is
ascending for both). -/
def regCommonDates (navdf : NavTable) (ff5s : List FF5Row) : List String :=
  ((navdf.dates.drop 1).filter (fun d => (ff5s.map FF5Row.date).contains d)).dedup

/-- Value of a date-indexed column at a given date. -/
def colAt (dates : List String) (col : List (Option ℚ)) (d : String) : Option ℚ :=
  match dates.findIdx? (fun c => c == d) with
  | some j => col.getD j none
  | none => none

/-- FF5 row for a given date. -/
def ff5At (ff5s : List FF5Row) (d : String) : Option FF5Row :=
  ff5s.find? (fun r => r.date == d)

/-- Aligned samples for one portfolio: for each common day with a defined
return, the excess return `ret - rf/100` paired with the five factor values
converted from percent to decimal (`y.dropna()` with `X_const.loc[y.index]`). -/
def regPairs (retDates : List String) (retCol : List (Option ℚ))
    (ff5s : List FF5Row) (common : List String) : List (ℚ × List ℚ) :=
  common.filterMap (fun d =>
    match colAt retDates retCol d, ff5At ff5s d with
    | some r, some row =>
      some (r - row.rf / 100,
        [row.mkt_rf / 100, row.smb / 100, row.hml / 100, row.rmw / 100, row.cma / 100])
    | _, _ => none)

/-- Rows committed to `ff5_regressions`: one per portfolio with at least 20
aligned observations whose OLS fit succeeds; portfolios with fewer
observations or a raising fit are skipped. -/
def regDbRows (fit : OLSFit) (computed_at : String) (navdf : NavTable)
    (ff5s : List FF5Row) (common : List String) : List RegRow :=
  navdf.series.filterMap (fun pcol =>
    let pairs := regPairs (navdf.dates.drop 1) (pctChangeTotal pcol.2) ff5s common
    if pairs.length < 20 then none
    else
      (fit pairs).map (fun res =>
        { portfolio_name := pcol.1, alpha := res.alpha, beta_mkt := res.beta_mkt,
          beta_smb := res.beta_smb, beta_hml := res.beta_hml, beta_rmw := res.beta_rmw,
          beta_cma := res.beta_cma, r_squared := res.r_squared, n_obs := res.n_obs,
          computed_at := computed_at }))

/-- Effect of one `INSERT OR REPLACE INTO ff5_regressions` (primary key
`portfolio_name`). -/
def regInsertOrReplace (st : List RegRow) (r : RegRow) : List RegRow :=
  st.filter (fun x => !(x.portfolio_name == r.portfolio_name)) ++ [r]

/-- Commit step of the regression engine: upsert the new rows, then delete
every row whose portfolio name is not in the current catalog. -/
def regCommit (db_rows : List RegRow) (regs : List RegRow) : List RegRow :=
  (db_rows.foldl regInsertOrReplace regs).filter
    (fun r => (PORTFOLIOS.map Prod.fst).contains r.portfolio_name)

/-- The insufficient-overlap error message, built exactly as the source
formats it. -/
def insufficientMsg (n : ℕ) (retFirst retLast ff5First ff5Last : String) : String :=
  "Only " ++ (toString n ++ (" overlapping trading days between portfolio NAV data (" ++
    (retFirst ++ (" – " ++ (retLast ++ (") and FF5 data (" ++
    (ff5First ++ (" – " ++ (ff5Last ++
    ("). Need at least 20. This is expected when START_DATE is more recent than the " ++
    "Ken French data release; regressions will run automatically once data aligns."))))))))))

/-- NAV input acquisition of the regression engine: the source recomputes
historical NAV directly from the market-data source over the lookback
window (`nav_df = _compute_nav_dataframe(FF5_LOOKBACK_DATE)`), not from the
NAV store. -/
def _run_ff5_regressions_nav_input (market : RawTable) : Except String NavTable :=
  _compute_nav_dataframe market

/-- Model of `_run_ff5_regressions`.  `sm` is `_STATSMODELS_OK`, `fit` the
OLS solver, `computed_at` the timestamp, `market` the raw price table the
market client returns for the lookback window, `db` the database state.
The value is `Except.error` only for the uncaught `IndexError` the source
would raise when building the insufficient-overlap message with an empty
return index; every handled path is `Except.ok (outcome, new db state)`. -/
def _run_ff5_regressions (sm : Bool) (fit : OLSFit) (computed_at : String)
    (market : RawTable) (db : RegDB) : Except String (RegOutcome × RegDB) :=
  if sm = false then
    Except.ok (.failure "statsmodels not installed (pip install statsmodels)" none, db)
  else
    match _run_ff5_regressions_nav_input market with
    | Except.error e =>
      Except.ok (.failure ("Could not compute historical NAV for regression: " ++ e) none, db)
    | Except.ok navdf =>
      if navdf.dates.isEmpty || navdf.series.isEmpty then
        Except.ok (.failure "Historical NAV empty – check yfinance connectivity" none, db)
      else
        if (ff5Sorted db).isEmpty then
          Except.ok (.failure "No FF5 data in DB – run /api/ff5/sync first" none, db)
        else
          if (regCommonDates navdf (ff5Sorted db)).length < 20 then
            if (navdf.dates.drop 1).isEmpty then
              Except.error "IndexError: index 0 is out of bounds for axis 0 with size 0"
            else
              Except.ok (.failure
                (insufficientMsg (regCommonDates navdf (ff5Sorted db)).length
                  ((navdf.dates.drop 1).headD "") ((navdf.dates.drop 1).getLastD "")
                  (((ff5Sorted db).map FF5Row.date).headD "")
                  (((ff5Sorted db).map FF5Row.date).getLastD ""))
                (some (regCommonDates navdf (ff5Sorted db)).length), db)
          else
            let db_rows := regDbRows fit computed_at navdf (ff5Sorted db)
              (regCommonDates navdf (ff5Sorted db))
            let db2 := if db_rows.isEmpty then db else
              { db with ff5_regressions := regCommit db_rows db.ff5_regressions }
            Except.ok (.success db_rows.length (regCommonDates navdf (ff5Sorted db)).length
              ((regCommonDates navdf (ff5Sorted db)).headD "" ++ " to " ++
                (regCommonDates navdf (ff5Sorted db)).getLastD ""), db2)

/-- Observable part of a regression run for store-independence statements:
the outcome and the two factor-side tables (the NAV store is a separate
component). -/
def regObservable (r : Except String (RegOutcome × RegDB)) :
    Except String (RegOutcome × List FF5Row × List RegRow) :=
  match r with
  | Except.error e => Except.error e
  | Except.ok rdb => Except.ok (rdb.1, rdb.2.ff5_daily, rdb.2.ff5_regressions)

/-- Spec-side reading for C2: the NAV store contents restricted to the
lookback window (dates at or after `FF5_LOOKBACK_DATE`). -/
def navStoreWindow (db : RegDB) : List NavRow :=
  db.nav.filter (fun r => pyStrLe FF5_LOOKBACK_DATE r.date)

/-- Substring containment used to state what an error message reports. -/
def containsSub (sub s : String) : Prop := ∃ p q : String, s = p ++ (sub ++ q)

/-- Trivial OLS solver used in concrete witnesses. -/
def fitW : OLSFit := fun _ => none

/-- Database state for the insufficient-overlap witness: one FF5 row dated
far from the NAV window, and one stale regression row for a portfolio that
is not in the catalog. -/
def dbW : RegDB :=
  { nav := [],
    ff5_daily := [{ date := "1999-01-04", mkt_rf := 1, smb := 0, hml := 0,
                    rmw := 0, cma := 0, rf := 0 }],
    ff5_regressions := [{ portfolio_name := "OldName", alpha := 0, beta_mkt := 0,
                          beta_smb := 0, beta_hml := 0, beta_rmw := 0, beta_cma := 0,
                          r_squared := 0, n_obs := 0, computed_at := "t0" }] }

/-- Database state with an empty FF5 store and a stale regression row. -/
def dbEmptyFF5 : RegDB :=
  { nav := [],
    ff5_daily := [],
    ff5_regressions := [{ portfolio_name := "OldName", alpha := 0, beta_mkt := 0,
                          beta_smb := 0, beta_hml := 0, beta_rmw := 0, beta_cma := 0,
                          r_squared := 0, n_obs := 0, computed_at := "t0" }] }

/-- Message of the insufficient-overlap failure at the values the engine
reports: common-day count, NAV return date range, FF5 date range. -/
def insufficientMsgOf (navdf : NavTable) (db : RegDB) : String :=
  insufficientMsg (regCommonDates navdf (ff5Sorted db)).length
    ((navdf.dates.drop 1).headD "") ((navdf.dates.drop 1).getLastD "")
    (((ff5Sorted db).map FF5Row.date).headD "")
    (((ff5Sorted db).map FF5Row.date).getLastD "")

/-- OLS solver for the success witness: zero coefficients with the
observation count. -/
def fitS : OLSFit := fun pairs =>
  some { alpha := 0, beta_mkt := 0, beta_smb := 0, beta_hml := 0, beta_rmw := 0,
         beta_cma := 0, r_squared := 0, n_obs := (pairs.length : ℤ) }

/-- Twenty-two consecutive dates for the success witness. -/
def datesS : List String :=
  ["2026-03-01", "2026-03-02", "2026-03-03", "2026-03-04", "2026-03-05",
   "2026-03-06", "2026-03-07", "2026-03-08", "2026-03-09", "2026-03-10",
   "2026-03-11", "2026-03-12", "2026-03-13", "2026-03-14", "2026-03-15",
   "2026-03-16", "2026-03-17", "2026-03-18", "2026-03-19", "2026-03-20",
   "2026-03-21", "2026-03-22"]

/-- Market close table for the success witness: SPY at a constant price. -/
def rawS : RawTable :=
  { cols := ["SPY"], rows := datesS.map (fun d => (d, [some 1])) }

/-- FF5 store covering the 21 return dates of `rawS`. -/
def ff5S : List FF5Row :=
  (datesS.drop 1).map (fun d =>
    { date := d, mkt_rf := 0, smb := 0, hml := 0, rmw := 0, cma := 0, rf := 0 })

/-- Database for the success witness: the FF5 rows plus one stale regression
row for a portfolio that is no longer in the catalog. -/
def dbS : RegDB :=
  { nav := [],
    ff5_daily := ff5S,
    ff5_regressions := [{ portfolio_name := "OldName", alpha := 0, beta_mkt := 0,
                          beta_smb := 0, beta_hml := 0, beta_rmw := 0, beta_cma := 0,
                          r_squared := 0, n_obs := 0, computed_at := "t0" }] }

/-- Outcome of the witness run. -/
def runS : Except String (RegOutcome × RegDB) :=
  _run_ff5_regressions true fitS "t2" rawS dbS

/-- Portfolio count of the witness run. -/
def kS : ℕ :=
  match runS with
  | Except.ok (RegOutcome.success k _ _, _) => k
  | _ => 0

/-- Common-day count of the witness run. -/
def nS : ℕ :=
  match runS with
  | Except.ok (RegOutcome.success _ n _, _) => n
  | _ => 0

/-- Date range of the witness run. -/
def drS : String :=
  match runS with
  | Except.ok (RegOutcome.success _ _ dr, _) => dr
  | _ => ""

/-- Database state after the witness run. -/
def db2S : RegDB :=
  match runS with
  | Except.ok (_, d) => d
  | _ => dbS

/- ------------------------------------------------------------------------
Theorems
------------------------------------------------------------------------ -/

mutual

theorem sanitize_no_bad : ∀ obj : PyObj, hasBadNumber (sanitize_for_json obj) = false
  | .pynone => rfl
  | .float f => by
      rw [sanitize_for_json]
      cases f <;> simp [_is_bad_number, hasBadNumber]
  | .int n => rfl
  | .str s => rfl
  | .bool b => rfl
  | .dict kvs => by
      rw [sanitize_for_json, hasBadNumber]
      exact sanitizeKVs_no_bad kvs
  | .list xs => by
      rw [sanitize_for_json, hasBadNumber]
      exact sanitizeList_no_bad xs
  | .tuple xs => by
      rw [sanitize_for_json, hasBadNumber]
      exact sanitizeList_no_bad xs

theorem sanitizeList_no_bad : ∀ xs : List PyObj, hasBadList (sanitizeList xs) = false
  | [] => rfl
  | x :: xs => by
      rw [sanitizeList, hasBadList, sanitize_no_bad x, sanitizeList_no_bad xs]
      rfl

theorem sanitizeKVs_no_bad : ∀ kvs : List (String × PyObj), hasBadKVs (sanitizeKVs kvs) = false
  | [] => rfl
  | kv :: kvs => by
      rw [sanitizeKVs, hasBadKVs, sanitize_no_bad kv.2, sanitizeKVs_no_bad kvs]
      rfl

end

/-- C9: the sanitizer output never contains a NaN or infinite float anywhere
(including inside nested dicts, lists and tuples); each bad float is mapped
to the `None` marker; and `None`, finite floats, ints, strings and bools are
passed through unchanged. -/
theorem sanitize_for_json_spec :
    (∀ obj : PyObj, hasBadNumber (sanitize_for_json obj) = false) ∧
    sanitize_for_json (.float .nan) = .pynone ∧
    sanitize_for_json (.float .inf) = .pynone ∧
    sanitize_for_json (.float .neginf) = .pynone ∧
    (∀ q : ℚ, sanitize_for_json (.float (.finite q)) = .float (.finite q)) ∧
    sanitize_for_json .pynone = .pynone ∧
    (∀ n : ℤ, sanitize_for_json (.int n) = .int n) ∧
    (∀ s : String, sanitize_for_json (.str s) = .str s) ∧
    (∀ b : Bool, sanitize_for_json (.bool b) = .bool b) := by
  refine ⟨sanitize_no_bad, ?_, ?_, ?_, ?_, ?_, ?_, ?_, ?_⟩ <;>
    intros <;> simp [sanitize_for_json, _is_bad_number]

theorem cummaxFrom_length (m : ℚ) (l : List ℚ) : (cummaxFrom m l).length = l.length := by
  induction l generalizing m with
  | nil => rfl
  | cons x xs ih => simp [cummaxFrom, ih]

theorem cummax_length (l : List ℚ) : (cummax l).length = l.length := by
  cases l with
  | nil => rfl
  | cons x xs => simp [cummax, cummaxFrom_length]

theorem cummaxFrom_getElem? (m : ℚ) (l : List ℚ) (t : ℕ) (ht : t < l.length) :
    (cummaxFrom m l)[t]? = some ((l.take (t + 1)).foldl max m) := by
  induction l generalizing m t with
  | nil => simp at ht
  | cons x xs ih =>
    cases t with
    | zero => simp [cummaxFrom]
    | succ t =>
      simp only [List.length_cons, Nat.succ_lt_succ_iff] at ht
      simp [cummaxFrom, ih _ _ ht]

theorem cummax_getElem? (l : List ℚ) (t : ℕ) (ht : t < l.length) :
    (cummax l)[t]? = some (prefixPeak l t) := by
  cases l with
  | nil => simp at ht
  | cons x xs =>
    cases t with
    | zero => simp [cummax, prefixPeak]
    | succ t =>
      simp only [List.length_cons, Nat.succ_lt_succ_iff] at ht
      simp [cummax, cummaxFrom_getElem? _ _ _ ht, prefixPeak]

theorem zipWith_getElem?_bind {α β γ : Type} (f : α → β → γ) (l1 : List α) (l2 : List β)
    (t : ℕ) :
    (List.zipWith f l1 l2)[t]? = (l1[t]?).bind (fun a => (l2[t]?).map (f a)) := by
  induction l1 generalizing l2 t with
  | nil => simp
  | cons x xs ih => cases l2 <;> cases t <;> simp [ih]

theorem max_drawdown_eq_spec (l : List ℚ) : _max_drawdown l = maxDrawdownSpec l := by
  unfold _max_drawdown maxDrawdownSpec
  congr 1
  apply List.ext_getElem?
  intro t
  rw [zipWith_getElem?_bind, List.getElem?_map]
  rcases Nat.lt_or_ge t l.length with ht | ht
  · rw [List.getElem?_eq_getElem ht, List.getElem?_range ht, cummax_getElem? l t ht]
    simp [List.getD_eq_getElem?_getD, List.getElem?_eq_getElem ht]
  · have h1 : l[t]? = none := List.getElem?_eq_none ht
    have h2 : (List.range l.length)[t]? = none := List.getElem?_eq_none (by simpa using ht)
    rw [h1, h2]
    rfl

theorem zipWith_drawdown_monotone (xs : List ℚ) :
    ∀ m : ℚ, List.Chain' (fun a b => a ≤ b) (m :: xs) → (∀ y ∈ xs, 0 < y) →
      List.zipWith (fun e p => e / p - 1) xs (cummaxFrom m xs) =
        List.replicate xs.length 0 := by
  induction xs with
  | nil => intro m _ _; rfl
  | cons y ys ih =>
    intro m hchain hpos
    rw [List.chain'_cons] at hchain
    have hmy : max m y = y := max_eq_right hchain.1
    have hy : (0 : ℚ) < y := hpos y (List.mem_cons_self y ys)
    rw [cummaxFrom, hmy, List.zipWith_cons_cons, div_self (ne_of_gt hy)]
    rw [ih y hchain.2 (fun z hz => hpos z (List.mem_cons_of_mem y hz))]
    rw [List.length_cons, List.replicate_succ]
    norm_num

theorem listMin_zero_replicate (n : ℕ) :
    listMin ((0 : ℚ) :: List.replicate n 0) = some 0 := by
  induction n with
  | zero => rfl
  | succ n ih =>
    rw [listMin, List.replicate_succ, ih]
    simp

/-- C7: max drawdown equals the minimum over time of
`NAV(t) / running-peak-NAV(t) - 1`; it is exactly 0 for every non-empty
monotonically non-decreasing positive series; and it is exactly -1/2 for the
series `[100, 50, 150]`. -/
theorem max_drawdown_spec_c7 :
    (∀ l : List ℚ, _max_drawdown l = maxDrawdownSpec l) ∧
    (∀ l : List ℚ, l ≠ [] → List.Chain' (fun a b => a ≤ b) l → (∀ x ∈ l, 0 < x) →
      _max_drawdown l = some 0) ∧
    _max_drawdown [100, 50, 150] = some (-(1 / 2)) := by
  refine ⟨max_drawdown_eq_spec, ?_,
    by norm_num [_max_drawdown, cummax, cummaxFrom, listMin, max_def, min_def]⟩
  intro l hne hchain hpos
  cases l with
  | nil => exact absurd rfl hne
  | cons x xs =>
    have hx : (0 : ℚ) < x := hpos x (List.mem_cons_self x xs)
    unfold _max_drawdown
    rw [cummax, List.zipWith_cons_cons, div_self (ne_of_gt hx)]
    rw [zipWith_drawdown_monotone xs x hchain
      (fun z hz => hpos z (List.mem_cons_of_mem x hz))]
    have := listMin_zero_replicate xs.length
    simpa using this

/-- Witness for C7 at a concrete input: the non-decreasing positive series
`[1, 2, 2]` has max drawdown exactly 0. -/
theorem max_drawdown_spec_c7_witness : _max_drawdown [1, 2, 2] = some 0 :=
  max_drawdown_spec_c7.2.1 [1, 2, 2] (by simp) (by norm_num [List.chain'_cons])
    (by norm_num)

theorem sameKey_comm (a b : NavRow) : sameKey a b = sameKey b a := by
  simp [sameKey, eq_comm]

theorem sameKey_self (r : NavRow) : sameKey r r = true := by
  simp [sameKey]

theorem hasKey_cons (r : NavRow) (rs : List NavRow) (x : NavRow) :
    hasKey (r :: rs) x = (sameKey r x || hasKey rs x) := by
  simp [hasKey]

theorem mem_dedupLast_hasKey (rows : List NavRow) (x : NavRow)
    (hx : x ∈ dedupLast rows) : hasKey rows x = true := by
  induction rows with
  | nil => simp [dedupLast] at hx
  | cons r rs ih =>
    rw [dedupLast] at hx
    rw [hasKey_cons]
    by_cases h : hasKey rs r
    · rw [if_pos h] at hx
      rw [ih hx]
      simp
    · rw [if_neg h] at hx
      rcases List.mem_cons.1 hx with rfl | hx
      · rw [sameKey_self]
        simp
      · rw [ih hx]
        simp

theorem db_upsert_canon (rows : List NavRow) : ∀ st : List NavRow,
    _db_upsert st rows = st.filter (fun x => !hasKey rows x) ++ dedupLast rows := by
  induction rows with
  | nil =>
    intro st
    simp [_db_upsert, dedupLast, hasKey]
  | cons r rs ih =>
    intro st
    have step : _db_upsert st (r :: rs) = _db_upsert (insertOrReplace st r) rs := rfl
    rw [step, ih, insertOrReplace, List.filter_append, List.filter_filter]
    have hpred : ∀ x ∈ st,
        ((!hasKey rs x) && !sameKey x r) = !hasKey (r :: rs) x := by
      intro x _
      rw [hasKey_cons, Bool.not_or, sameKey_comm x r, Bool.and_comm]
    rw [List.filter_congr hpred, dedupLast]
    by_cases h : hasKey rs r
    · rw [if_pos h]
      have : (!hasKey rs r) = false := by rw [h]; rfl
      simp [List.filter, this]
    · rw [if_neg h]
      have : (!hasKey rs r) = true := by rw [Bool.not_eq_true']; exact Bool.of_not_eq_true h
      simp [List.filter, this]

/-- C5: NAV-store upsert is idempotent — upserting a batch twice leaves the
table exactly as upserting it once — and a single `INSERT OR REPLACE` whose
key already exists replaces the prior value (afterwards exactly one row
carries that key) while leaving all rows with other keys unchanged. -/
theorem db_upsert_idempotent_c5 :
    (∀ st rows : List NavRow, _db_upsert (_db_upsert st rows) rows = _db_upsert st rows) ∧
    (∀ (st : List NavRow) (r : NavRow),
      (insertOrReplace st r).filter (fun x => sameKey x r) = [r]) ∧
    (∀ (st : List NavRow) (r : NavRow),
      (insertOrReplace st r).filter (fun x => !sameKey x r) =
        st.filter (fun x => !sameKey x r)) := by
  refine ⟨?_, ?_, ?_⟩
  · intro st rows
    rw [db_upsert_canon, db_upsert_canon, List.filter_append, List.filter_filter]
    have h1 : ∀ x ∈ st, ((!hasKey rows x) && !hasKey rows x) = !hasKey rows x := by
      intro x _
      rw [Bool.and_self]
    rw [List.filter_congr h1]
    have h2 : (dedupLast rows).filter (fun x => !hasKey rows x) = [] := by
      rw [List.filter_eq_nil_iff]
      intro a ha
      rw [mem_dedupLast_hasKey rows a ha]
      simp
    rw [h2, List.append_nil]
  · intro st r
    rw [insertOrReplace, List.filter_append, List.filter_filter]
    have h1 : ∀ x ∈ st, (sameKey x r && !sameKey x r) = false := by
      intro x _
      exact Bool.and_not_self _
    rw [List.filter_congr h1]
    simp [List.filter, sameKey_self]
  · intro st r
    rw [insertOrReplace, List.filter_append, List.filter_filter]
    have h1 : ∀ x ∈ st, ((!sameKey x r) && !sameKey x r) = !sameKey x r := by
      intro x _
      rw [Bool.and_self]
    rw [List.filter_congr h1]
    simp [List.filter, sameKey_self]

/-- Counterexample to C1 as stated: for the portfolio-series endpoint, with a
stale memoized payload present (age 100 ≥ TTL 60) and a failing
recomputation, the failure propagates to the caller instead of the stale
payload being returned. -/
theorem portfolio_series_stale_fallback_false :
    (portfolio_series (α := ℚ) 100 (Except.error "db down")
        { ts := 0, payload := some 1 }).1 = Except.error "db down" ∧
    (portfolio_series (α := ℚ) 100 (Except.error "db down")
        { ts := 0, payload := some 1 }).1 ≠ Except.ok 1 := by
  constructor
  · rw [portfolio_series]
    norm_num [SERIES_CACHE_SECONDS]
  · rw [portfolio_series]
    norm_num [SERIES_CACHE_SECONDS]
    simp

/-- C1 (amended): fresh cache hits on either endpoint return the memoized
payload unchanged without consulting the recomputation; on recomputation
failure the outlook endpoint falls back to a stale payload when one exists
and records the failure reason, propagating the failure only when no prior
payload exists; the portfolio-series endpoint propagates a recomputation
failure (leaving its cache untouched) whenever the fresh-hit test fails,
even when a stale payload exists. -/
theorem cached_reads_c1 {α : Type} :
    (∀ (now : ℚ) (build : Except String α) (c : SeriesCache α) (p : α),
      c.payload = some p → now - c.ts < SERIES_CACHE_SECONDS →
      portfolio_series now build c = (Except.ok p, c)) ∧
    (∀ (now : ℚ) (load : Except String α) (c : OutlookCache α) (p : α),
      c.payload = some p → now - c.ts < OUTLOOK_CACHE_SECONDS →
      outlook now load c = (Except.ok p, c)) ∧
    (∀ (now : ℚ) (e : String) (c : OutlookCache α) (p : α),
      c.payload = some p → ¬(now - c.ts < OUTLOOK_CACHE_SECONDS) →
      outlook now (Except.error e) c = (Except.ok p, { c with last_error := some e })) ∧
    (∀ (now : ℚ) (e : String) (c : OutlookCache α),
      c.payload = none →
      outlook now (Except.error e) c = (Except.error e, { c with last_error := some e })) ∧
    (∀ (now : ℚ) (e : String) (c : SeriesCache α),
      ¬(c.payload.isSome ∧ now - c.ts < SERIES_CACHE_SECONDS) →
      portfolio_series now (Except.error e) c = (Except.error e, c)) := by
  refine ⟨?_, ?_, ?_, ?_, ?_⟩
  · intro now build c p hp hfresh
    simp [portfolio_series, hp, hfresh]
  · intro now load c p hp hfresh
    simp [outlook, hp, hfresh]
  · intro now e c p hp hstale
    simp [outlook, hp, hstale]
  · intro now e c hp
    simp [outlook, hp]
  · intro now e c h
    rcases hp : c.payload with _ | p
    · simp [portfolio_series, hp]
    · have hstale : ¬(now - c.ts < SERIES_CACHE_SECONDS) := by
        intro hfresh
        exact h ⟨by simp [hp], hfresh⟩
      simp [portfolio_series, hp, hstale]

/-- Witness for C1 (amended) at a concrete input: the outlook endpoint with
an expired cache (age 1000 ≥ 300) and a failing reload returns the stale
payload 7 and records the failure reason. -/
theorem cached_reads_c1_witness :
    outlook (α := ℚ) 1000 (Except.error "down")
        { ts := 0, payload := some 7, last_error := none } =
      (Except.ok 7, { ts := 0, payload := some 7, last_error := some "down" }) :=
  (cached_reads_c1 (α := ℚ)).2.2.1 1000 "down"
    { ts := 0, payload := some 7, last_error := none } 7
    rfl (by norm_num [OUTLOOK_CACHE_SECONDS])

/-- C10: the health endpoint reports top-level `ok = True` unconditionally —
in particular even when both the last NAV refresh and the last factor
refresh recorded failures — while those failures remain visible (with their
error texts) only in the nested per-refresh blocks. -/
theorem health_ok_unconditional_c10 {α β : Type} (dbLatest : Option String)
    (s : SyncStatus) (f : FF5SyncStatus) (statsmodelsOk : Bool)
    (sc : SeriesCache α) (oc : OutlookCache β) (now : ℚ)
    (hs : s.ok = some false) (hf : f.ok = some false) :
    (health dbLatest s f statsmodelsOk sc oc now).ok = true ∧
    (health dbLatest s f statsmodelsOk sc oc now).last_nav_sync.ok = some false ∧
    (health dbLatest s f statsmodelsOk sc oc now).last_nav_sync.error = s.error ∧
    (health dbLatest s f statsmodelsOk sc oc now).last_ff5_sync.ok = some false ∧
    (health dbLatest s f statsmodelsOk sc oc now).last_ff5_sync.error = f.error :=
  ⟨rfl, by rw [health]; exact hs, rfl, by rw [health]; exact hf, rfl⟩

/-- Witness for C10 at a concrete input: both refreshes failed, yet the
health flag is `true`. -/
theorem health_ok_unconditional_c10_witness :
    (health (α := ℚ) (β := ℚ) none
        { ok := some false, rows_upserted := 0, latest_date := none,
          error := some "nav failed", ts := 0 }
        { ok := some false, ff5_rows := 0, reg_portfolios := 0,
          error := some "ff5 failed", ts := 0 }
        true { ts := 0, payload := none } { ts := 0, payload := none, last_error := none }
        42).ok = true ∧
    (health (α := ℚ) (β := ℚ) none
        { ok := some false, rows_upserted := 0, latest_date := none,
          error := some "nav failed", ts := 0 }
        { ok := some false, ff5_rows := 0, reg_portfolios := 0,
          error := some "ff5 failed", ts := 0 }
        true { ts := 0, payload := none } { ts := 0, payload := none, last_error := none }
        42).last_nav_sync.ok = some false :=
  ⟨(health_ok_unconditional_c10 none _ _ true _ _ 42 rfl rfl).1,
   (health_ok_unconditional_c10 none _ _ true _ _ 42 rfl rfl).2.1⟩

theorem findIdx?_beq_none_iff (cols : List String) (s : String) :
    cols.findIdx? (fun c => c == s) = none ↔ s ∉ cols := by
  rw [List.findIdx?_eq_none_iff]
  constructor
  · intro h hs
    have := h s hs
    simp at this
  · intro hs c hc
    simp only [beq_eq_false_iff_ne]
    rintro rfl
    exact hs hc

theorem navRowContrib_eq_sum (cols : List String) (cells : List ℚ)
    (w : List (String × ℚ)) :
    navRowContrib cols cells w =
      (w.map (fun wt =>
        if pyUpper wt.1 ≠ "CASH" ∧ wt.2 ≠ 0 ∧ yahoo_ticker wt.1 ∈ cols
        then wt.2 * (match cols.findIdx? (fun c => c == yahoo_ticker wt.1) with
                     | some j => cells.getD j 0
                     | none => 0)
        else 0)).sum := by
  suffices h : ∀ (w : List (String × ℚ)) (acc : ℚ),
      w.foldl (fun (acc : ℚ) (wt : String × ℚ) =>
        if pyUpper wt.1 = "CASH" then acc
        else if wt.2 = 0 then acc
        else
          match cols.findIdx? (fun c => c == yahoo_ticker wt.1) with
          | some j => acc + wt.2 * cells.getD j 0
          | none => acc) acc =
      acc + (w.map (fun wt =>
        if pyUpper wt.1 ≠ "CASH" ∧ wt.2 ≠ 0 ∧ yahoo_ticker wt.1 ∈ cols
        then wt.2 * (match cols.findIdx? (fun c => c == yahoo_ticker wt.1) with
                     | some j => cells.getD j 0
                     | none => 0)
        else 0)).sum by
    have h0 := h w 0
    rw [zero_add] at h0
    exact h0
  intro w
  induction w with
  | nil =>
    intro acc
    simp
  | cons wt ws ih =>
    intro acc
    rw [List.foldl_cons, List.map_cons, List.sum_cons, ih]
    by_cases hc : pyUpper wt.1 = "CASH"
    · rw [if_pos hc, if_neg (fun hcond => hcond.1 hc), zero_add]
    · by_cases hz : wt.2 = 0
      · rw [if_neg hc, if_pos hz, if_neg (fun hcond => hcond.2.1 hz), zero_add]
      · rcases hidx : cols.findIdx? (fun c => c == yahoo_ticker wt.1) with _ | j
        · have hmem : yahoo_ticker wt.1 ∉ cols := (findIdx?_beq_none_iff cols _).1 hidx
          simp only [hidx]
          rw [if_neg hc, if_neg hz, if_neg (fun hcond => hmem hcond.2.2), zero_add]
        · have hmem : yahoo_ticker wt.1 ∈ cols := by
            by_contra hm
            rw [(findIdx?_beq_none_iff cols _).2 hm] at hidx
            cases hidx
          simp only [hidx]
          rw [if_neg hc, if_neg hz, if_pos ⟨hc, hz, hmem⟩, add_assoc]

theorem zipPct_replicate_none_zero (cells : List (Option ℚ)) :
    ∀ n : ℕ, ∀ x ∈ List.zipWith pctCell (List.replicate n none) cells, x = 0 := by
  induction cells with
  | nil =>
    intro n x hx
    simp at hx
  | cons c cs ih =>
    intro n x hx
    cases n with
    | zero => simp at hx
    | succ n =>
      rw [List.replicate_succ, List.zipWith_cons_cons] at hx
      rcases List.mem_cons.1 hx with rfl | hx
      · rfl
      · exact ih n x hx

theorem getD_zero_of_all_zero (l : List ℚ) (j : ℕ) (h : ∀ x ∈ l, x = 0) :
    l.getD j 0 = 0 := by
  rw [List.getD_eq_getElem?_getD]
  cases hj : l[j]? with
  | none => rfl
  | some x =>
    have hx : x ∈ l := List.getElem?_mem hj
    simp [h x hx]

theorem navRowContrib_zero (cols : List String) (cells : List ℚ)
    (w : List (String × ℚ)) (h : ∀ x ∈ cells, x = 0) :
    navRowContrib cols cells w = 0 := by
  rw [navRowContrib_eq_sum]
  apply List.sum_eq_zero
  intro q hq
  rcases List.mem_map.1 hq with ⟨wt, _, rfl⟩
  split_ifs with hcond
  · rcases hidx : cols.findIdx? (fun c => c == yahoo_ticker wt.1) with _ | j
    · simp only [hidx]
      rw [mul_zero]
    · simp only [hidx]
      rw [getD_zero_of_all_zero cells j h, mul_zero]
  · rfl

theorem cumprodFrom_length (c : ℚ) (rs : List ℚ) :
    (cumprodFrom c rs).length = rs.length := by
  induction rs generalizing c with
  | nil => rfl
  | cons r rs ih => simp [cumprodFrom, ih]

theorem cumprodFrom_getD_zero (c : ℚ) (rs : List ℚ) (h : rs ≠ []) :
    (cumprodFrom c rs).getD 0 0 = c * (1 + rs.getD 0 0) := by
  cases rs with
  | nil => exact absurd rfl h
  | cons r rs => rfl

theorem cumprodFrom_getD_succ (rs : List ℚ) :
    ∀ (c : ℚ) (t : ℕ), t + 1 < rs.length →
      (cumprodFrom c rs).getD (t + 1) 0 =
        (cumprodFrom c rs).getD t 0 * (1 + rs.getD (t + 1) 0) := by
  induction rs with
  | nil =>
    intro c t ht
    simp at ht
  | cons r rs ih =>
    intro c t ht
    rw [cumprodFrom]
    cases t with
    | zero =>
      have hne : rs ≠ [] := by
        intro hr
        rw [hr] at ht
        simp at ht
      simp only [List.getD_cons_succ, List.getD_cons_zero]
      exact cumprodFrom_getD_zero _ _ hne
    | succ t =>
      have ht' : t + 1 < rs.length := by simpa using ht
      simp only [List.getD_cons_succ]
      exact ih _ _ ht'

theorem map_getD_row (rows : List (String × List ℚ)) (f : String × List ℚ → ℚ)
    (t : ℕ) (ht : t < rows.length) :
    (rows.map f).getD t 0 = f (rows.getD t ("", [])) := by
  rw [List.getD_eq_getElem?_getD, List.getElem?_map, List.getElem?_eq_getElem ht]
  rw [List.getD_eq_getElem?_getD, List.getElem?_eq_getElem ht]
  rfl

theorem specContrib_eq_navRowContrib (rt : RetTable) (t : ℕ)
    (w : List (String × ℚ)) :
    specContrib rt t w = navRowContrib rt.cols (rt.rows.getD t ("", [])).2 w := by
  rw [navRowContrib_eq_sum, specContrib]
  rfl

theorem pctRows_eq_nil_iff (prev : List (Option ℚ))
    (rows : List (String × List (Option ℚ))) :
    pctRows prev rows = [] ↔ rows = [] := by
  cases rows with
  | nil => simp [pctRows]
  | cons r rs => simp [pctRows]

theorem navColumn_head (colsA : List String) (prevN : ℕ)
    (rows0 : List (String × List (Option ℚ))) (w : List (String × ℚ))
    (hne : rows0 ≠ []) :
    (navColumn { cols := colsA,
                 rows := pctRows (List.replicate prevN none) rows0 } w).getD 0 0 =
      INITIAL_CAPITAL := by
  cases rows0 with
  | nil => exact absurd rfl hne
  | cons r rs =>
    have h0 : navRowContrib colsA
        (List.zipWith pctCell (List.replicate prevN none) r.2) w = 0 :=
      navRowContrib_zero _ _ _ (fun x hx => zipPct_replicate_none_zero r.2 prevN x hx)
    simp only [navColumn, pctRows, List.map_cons, cumprodFrom, List.getD_cons_zero]
    rw [h0]
    norm_num

theorem nav_series_of_ok (raw : RawTable) (rt : RetTable) (nav : NavTable)
    (hrt : _compute_returns raw = Except.ok rt)
    (hnav : _compute_nav_dataframe raw = Except.ok nav) :
    nav.series = PORTFOLIOS.map (fun p => (p.1, navColumn rt p.2)) ∧ rt.rows ≠ [] := by
  unfold _compute_nav_dataframe at hnav
  rw [hrt] at hnav
  split at hnav
  · rename_i e heq
    exact Except.noConfusion heq
  · rename_i rtv heq
    obtain rfl : rt = rtv := Except.ok.inj heq
    simp only [] at hnav
    split at hnav
    · cases hnav
    · rename_i hcond
      obtain rfl := Except.ok.inj hnav
      refine ⟨rfl, ?_⟩
      intro hrows
      apply hcond
      rw [Bool.or_eq_true]
      left
      rw [hrows]
      rfl

/-- C3: for every portfolio in the catalog, the NAV curve computed by
`_compute_nav_dataframe` (its entry in the produced NAV table) starts at
exactly the initial capital 100, and every later day satisfies
`NAV(t) = NAV(t-1) * (1 + sum of weight * return over the non-CASH nonzero
holdings whose normalized symbol is a column of the return table)`; absent
symbols and CASH contribute exactly 0 and no weight is renormalized. -/
theorem nav_curve_recurrence_c3 (raw : RawTable) (rt : RetTable) (nav : NavTable)
    (hrt : _compute_returns raw = Except.ok rt)
    (hnav : _compute_nav_dataframe raw = Except.ok nav)
    (p : String × List (String × ℚ)) (hp : p ∈ PORTFOLIOS) :
    (p.1, navColumn rt p.2) ∈ nav.series ∧
    (navColumn rt p.2).getD 0 0 = INITIAL_CAPITAL ∧
    (∀ t : ℕ, t + 1 < rt.rows.length →
      (navColumn rt p.2).getD (t + 1) 0 =
        (navColumn rt p.2).getD t 0 * (1 + specContrib rt (t + 1) p.2)) := by
  obtain ⟨hser, hne⟩ := nav_series_of_ok raw rt nav hrt hnav
  refine ⟨?_, ?_, ?_⟩
  · rw [hser]
    exact List.mem_map_of_mem _ hp
  · unfold _compute_returns at hrt
    by_cases h1 : raw.rows.isEmpty = true
    · rw [if_pos h1] at hrt
      exact Except.noConfusion hrt
    · rw [if_neg h1] at hrt
      by_cases h2 : (dropAllNoneCols (selectClose raw)).cols.isEmpty = true
      · rw [if_pos h2] at hrt
        exact Except.noConfusion hrt
      · rw [if_neg h2] at hrt
        obtain rfl := Except.ok.inj hrt
        apply navColumn_head
        intro h0
        apply hne
        show pctRows _ _ = []
        exact (pctRows_eq_nil_iff _ _).2 h0
  · intro t ht
    rw [specContrib_eq_navRowContrib, navColumn]
    rw [cumprodFrom_getD_succ _ _ _ (by simpa using ht)]
    rw [map_getD_row _ _ _ ht]

/-- Witness for C3 at a concrete input: on the two-day single-symbol table
`rawW`, the SPY portfolio curve is in the produced NAV table, starts at
exactly 100, and follows the blended-return recurrence on day 1. -/
theorem nav_curve_recurrence_c3_witness :
    ("SPY", navColumn rtW [("SPY", 1.0)]) ∈ navW.series ∧
    (navColumn rtW [("SPY", 1.0)]).getD 0 0 = INITIAL_CAPITAL ∧
    (navColumn rtW [("SPY", 1.0)]).getD 1 0 =
      (navColumn rtW [("SPY", 1.0)]).getD 0 0 *
        (1 + specContrib rtW 1 [("SPY", 1.0)]) := by
  have h := nav_curve_recurrence_c3 rawW rtW navW rfl rfl ("SPY", [("SPY", 1.0)])
    (List.mem_cons_self _ _)
  exact ⟨h.1, h.2.1, h.2.2 0 (by decide)⟩

theorem eq_of_mem_keysNodup {β : Type} (l : List (String × β))
    (h : (l.map Prod.fst).Nodup) (a b : String × β) (ha : a ∈ l) (hb : b ∈ l)
    (hk : a.1 = b.1) : a = b := by
  induction l with
  | nil => simp at ha
  | cons x xs ih =>
    rw [List.map_cons, List.nodup_cons] at h
    rcases List.mem_cons.1 ha with ha1 | ha2
    · rcases List.mem_cons.1 hb with hb1 | hb2
      · rw [ha1, hb1]
      · exfalso
        apply h.1
        rw [← ha1, hk]
        exact List.mem_map_of_mem Prod.fst hb2
    · rcases List.mem_cons.1 hb with hb1 | hb2
      · exfalso
        apply h.1
        rw [← hb1, ← hk]
        exact List.mem_map_of_mem Prod.fst ha2
      · exact ih h.2 ha2 hb2

/-- C6: a NAV column with fewer than 2 valid points produces no stats entry
at all, and whenever fewer than 2 valid daily returns exist or the sample
variance (equivalently, the standard deviation) of the daily returns is
zero, both the annualized volatility and the Sharpe ratio are `None`. -/
theorem compute_stats_nulls_c6 :
    (∀ (idx : List ℤ) (cum : List (String × List (Option ℚ))) (name : String)
        (col : List (Option ℚ)),
      (name, col) ∈ cum → (validPoints idx col).length < 2 →
      (cum.map Prod.fst).Nodup →
      name ∉ (_compute_stats idx cum).map Prod.fst) ∧
    (∀ (idx : List ℤ) (col : List (Option ℚ)) (e : StatsEntry),
      _compute_stats_one idx col = some e →
      (validReturns col).length < 2 ∨ sampleVar (validReturns col) = 0 →
      e.vol = none ∧ e.sharpe = none) := by
  have hone : ∀ (idx : List ℤ) (col : List (Option ℚ)),
      (validPoints idx col).length < 2 → _compute_stats_one idx col = none := by
    intro idx col hlt
    unfold _compute_stats_one
    rw [if_pos hlt]
  constructor
  · intro idx cum name col hmem hlt hnodup hin
    rcases List.mem_map.1 hin with ⟨y, hy, hyname⟩
    rcases List.mem_filterMap.1 hy with ⟨c, hc, hcy⟩
    rcases hsome : _compute_stats_one idx c.2 with _ | e
    · rw [hsome] at hcy
      cases hcy
    · rw [hsome] at hcy
      obtain rfl := Option.some.inj hcy
      have hceq : c = (name, col) :=
        eq_of_mem_keysNodup cum hnodup c (name, col) hc hmem hyname
      rw [hceq] at hsome
      rw [hone idx col hlt] at hsome
      cases hsome
  · intro idx col e he hz
    have hstd : stdSq (validReturns col) = 0 := by
      rcases hz with hz | hz
      · rw [stdSq, if_neg (by omega)]
      · rw [stdSq, hz]
        split_ifs <;> rfl
    unfold _compute_stats_one at he
    simp only [] at he
    rw [hstd] at he
    split_ifs at he
    all_goals
      first
        | exact Option.noConfusion he
        | exact absurd (by assumption : (0 : ℚ) < 0) (lt_irrefl 0)
        | (obtain rfl := Option.some.inj he; exact ⟨rfl, rfl⟩)

/-- Witness for C6 at concrete inputs: a one-point column produces no entry,
and the flat two-point column (single zero return) yields an entry whose
volatility and Sharpe are both `None`. -/
theorem compute_stats_nulls_c6_witness :
    "A" ∉ (_compute_stats [0] [("A", [some 1])]).map Prod.fst ∧
    entryW.vol = none ∧ entryW.sharpe = none := by
  refine ⟨?_, ?_⟩
  · exact compute_stats_nulls_c6.1 [0] [("A", [some 1])] "A" [some 1]
      (List.mem_cons_self _ _) (by decide) (by decide)
  · exact compute_stats_nulls_c6.2 idxW colW entryW rfl (Or.inl (by decide))

theorem ff5Sorted_update_nav (db : RegDB) (n : List NavRow) :
    ff5Sorted { db with nav := n } = ff5Sorted db := rfl

theorem str_append_assoc (a b c : String) : a ++ b ++ c = a ++ (b ++ c) :=
  String.append_assoc a b c

theorem containsSub_append_left (s sub t : String) (h : containsSub sub t) :
    containsSub sub (s ++ t) := by
  obtain ⟨p, q, hpq⟩ := h
  exact ⟨s ++ p, q, by rw [hpq, str_append_assoc]⟩

theorem containsSub_here (p sub q : String) : containsSub sub (p ++ (sub ++ q)) :=
  ⟨p, q, rfl⟩

theorem insertLe_ne_nil {α : Type} (le : α → α → Bool) (x : α) (l : List α) :
    insertLe le x l ≠ [] := by
  cases l with
  | nil => simp [insertLe]
  | cons y ys =>
    rw [insertLe]
    split <;> simp

theorem sortByLe_eq_nil_iff {α : Type} (le : α → α → Bool) (l : List α) :
    sortByLe le l = [] ↔ l = [] := by
  cases l with
  | nil => simp [sortByLe]
  | cons x xs =>
    simp only [sortByLe, List.foldr_cons]
    constructor
    · intro h
      exact absurd h (insertLe_ne_nil le x _)
    · intro h
      cases h

theorem nav_dataframe_ok_nonempty (raw : RawTable) (navdf : NavTable)
    (h : _compute_nav_dataframe raw = Except.ok navdf) :
    navdf.dates.isEmpty = false ∧ navdf.series.isEmpty = false := by
  unfold _compute_nav_dataframe at h
  split at h
  · exact Except.noConfusion h
  · rename_i rt heq
    simp only [] at h
    split at h
    · exact Except.noConfusion h
    · rename_i hcond
      obtain rfl := Except.ok.inj h
      rw [Bool.or_eq_true] at hcond
      push_neg at hcond
      exact ⟨Bool.not_eq_true _ ▸ hcond.1, Bool.not_eq_true _ ▸ hcond.2⟩

/-- Counterexample to C2 as stated: on a concrete run, the regression
engine's NAV input (recomputed from the raw market table) is a non-empty
NAV table, while the NAV store restricted to the lookback window is empty —
the input cannot equal the store contents. -/
theorem reg_nav_not_from_store_counterexample :
    _run_ff5_regressions_nav_input rawW = Except.ok navW ∧
    navW.dates ≠ [] ∧
    navStoreWindow { nav := [], ff5_daily := [], ff5_regressions := [] } = [] :=
  ⟨rfl, by decide, rfl⟩

/-- C2 (amended): the regression engine obtains its NAV input by recomputing
from the raw market-data source (`_compute_nav_dataframe`), not from the NAV
store: its outcome and the factor-side tables are unchanged under arbitrary
replacement of the NAV store contents. -/
theorem reg_recomputes_nav_c2 (sm : Bool) (fit : OLSFit) (ca : String)
    (market : RawTable) (db : RegDB) (navA navB : List NavRow) :
    regObservable (_run_ff5_regressions sm fit ca market { db with nav := navA }) =
      regObservable (_run_ff5_regressions sm fit ca market { db with nav := navB }) ∧
    _run_ff5_regressions_nav_input market = _compute_nav_dataframe market := by
  refine ⟨?_, rfl⟩
  unfold _run_ff5_regressions
  by_cases hsm : sm = false
  · rw [if_pos hsm, if_pos hsm]
    rfl
  · rw [if_neg hsm, if_neg hsm]
    cases hnav : _run_ff5_regressions_nav_input market with
    | error e => rfl
    | ok navdf =>
      simp only [ff5Sorted_update_nav]
      split_ifs <;> rfl

/-- C4: whenever the NAV return index and the FF5 store share fewer than 20
common trading days (with a non-degenerate return index and a non-empty FF5
store), the regression run reports failure with a message containing the
common-day count and both observed date ranges, and the database — in
particular the `ff5_regressions` store — is returned unchanged. -/
theorem insufficient_overlap_c4 (fit : OLSFit) (ca : String) (market : RawTable)
    (db : RegDB) (navdf : NavTable)
    (hnav : _compute_nav_dataframe market = Except.ok navdf)
    (hff5 : db.ff5_daily ≠ [])
    (hret : navdf.dates.drop 1 ≠ [])
    (hcount : (regCommonDates navdf (ff5Sorted db)).length < 20) :
    _run_ff5_regressions true fit ca market db =
      Except.ok (RegOutcome.failure (insufficientMsgOf navdf db)
        (some (regCommonDates navdf (ff5Sorted db)).length), db) ∧
    containsSub (toString (regCommonDates navdf (ff5Sorted db)).length)
      (insufficientMsgOf navdf db) ∧
    containsSub ((navdf.dates.drop 1).headD "") (insufficientMsgOf navdf db) ∧
    containsSub ((navdf.dates.drop 1).getLastD "") (insufficientMsgOf navdf db) ∧
    containsSub (((ff5Sorted db).map FF5Row.date).headD "") (insufficientMsgOf navdf db) ∧
    containsSub (((ff5Sorted db).map FF5Row.date).getLastD "") (insufficientMsgOf navdf db) := by
  have hone := nav_dataframe_ok_nonempty market navdf hnav
  have hnav2 : _run_ff5_regressions_nav_input market = Except.ok navdf := hnav
  refine ⟨?_, ?_, ?_, ?_, ?_, ?_⟩
  · unfold _run_ff5_regressions
    rw [if_neg (by decide : ¬(true = false))]
    simp only [hnav2]
    rw [if_neg (by rw [hone.1, hone.2]; decide)]
    rw [if_neg (show ¬((ff5Sorted db).isEmpty = true) from fun hemp =>
      hff5 ((sortByLe_eq_nil_iff _ _).1 (List.isEmpty_iff.1 hemp)))]
    rw [if_pos hcount]
    rw [if_neg (fun hemp => hret (List.isEmpty_iff.1 hemp))]
    rfl
  · exact containsSub_here _ _ _
  · exact containsSub_append_left _ _ _ (containsSub_append_left _ _ _
      (containsSub_here _ _ _))
  · exact containsSub_append_left _ _ _ (containsSub_append_left _ _ _
      (containsSub_append_left _ _ _ (containsSub_append_left _ _ _
        (containsSub_here _ _ _))))
  · exact containsSub_append_left _ _ _ (containsSub_append_left _ _ _
      (containsSub_append_left _ _ _ (containsSub_append_left _ _ _
        (containsSub_append_left _ _ _ (containsSub_append_left _ _ _
          (containsSub_here _ _ _))))))
  · exact containsSub_append_left _ _ _ (containsSub_append_left _ _ _
      (containsSub_append_left _ _ _ (containsSub_append_left _ _ _
        (containsSub_append_left _ _ _ (containsSub_append_left _ _ _
          (containsSub_append_left _ _ _ (containsSub_append_left _ _ _
            (containsSub_here _ _ _))))))))

/-- Witness for C4 at a concrete input: one common day would be needed but
the single FF5 row (1999) shares no date with the two-day 2026 NAV window,
so the run reports the insufficient-overlap failure and leaves the database
(including its stale regression row) unchanged. -/
theorem insufficient_overlap_c4_witness :
    _run_ff5_regressions true fitW "t1" rawW dbW =
      Except.ok (RegOutcome.failure (insufficientMsgOf navW dbW)
        (some (regCommonDates navW (ff5Sorted dbW)).length), dbW) ∧
    containsSub (toString (regCommonDates navW (ff5Sorted dbW)).length)
      (insufficientMsgOf navW dbW) :=
  have h := insufficient_overlap_c4 fitW "t1" rawW dbW navW rfl (by decide)
    (by decide) (by decide)
  ⟨h.1, h.2.1⟩

/-- Counterexample to C8 as stated: a regression run that fails before the
commit step (here: empty FF5 store) does not prune stale regression rows —
after the run the store still contains a row for a portfolio name that is
not in the catalog. -/
theorem reg_prune_c8_counterexample :
    _run_ff5_regressions true fitW "t1" rawW dbEmptyFF5 =
      Except.ok (RegOutcome.failure "No FF5 data in DB – run /api/ff5/sync first" none,
        dbEmptyFF5) ∧
    dbEmptyFF5.ff5_regressions.map RegRow.portfolio_name = ["OldName"] ∧
    "OldName" ∉ PORTFOLIOS.map Prod.fst := by
  refine ⟨?_, rfl, by decide⟩
  rfl

/-- C8 (amended): when a regression run reports success with at least one
portfolio computed (the only case in which the source commits), the
resulting `ff5_regressions` store contains only rows whose portfolio name is
in the current catalog; runs that fail or compute zero portfolios leave the
store untouched. -/
theorem reg_prune_on_commit_c8 (fit : OLSFit) (ca : String) (market : RawTable)
    (db : RegDB) (k n : ℕ) (dr : String) (db2 : RegDB)
    (h : _run_ff5_regressions true fit ca market db =
      Except.ok (RegOutcome.success k n dr, db2))
    (hk : k ≠ 0) :
    ∀ r ∈ db2.ff5_regressions, r.portfolio_name ∈ PORTFOLIOS.map Prod.fst := by
  unfold _run_ff5_regressions at h
  rw [if_neg (by decide : ¬(true = false))] at h
  rcases hm : _run_ff5_regressions_nav_input market with e | navdf
  all_goals simp only [hm] at h
  · exact absurd (Prod.ext_iff.1 (Except.ok.inj h)).1
      (fun hcon => RegOutcome.noConfusion hcon)
  · split_ifs at h with h1 h2 h3 h4 h5
    all_goals first
      | exact Except.noConfusion h
      | exact absurd (Prod.ext_iff.1 (Except.ok.inj h)).1
          (fun hcon => RegOutcome.noConfusion hcon)
      | (simp only [Except.ok.injEq, Prod.mk.injEq, RegOutcome.success.injEq] at h
         obtain ⟨⟨hA, hB, hC⟩, hdb⟩ := h
         by_cases hemp : (regDbRows fit ca navdf (ff5Sorted db)
             (regCommonDates navdf (ff5Sorted db))).isEmpty = true
         · rw [List.isEmpty_iff.1 hemp] at hA
           exact absurd hA.symm hk
         · first
             | (rw [← hdb]
                intro r hr
                exact List.mem_of_elem_eq_true (List.mem_filter.1 hr).2)
             | exact absurd h5 hemp)

unseal Nat.gcd Rat.mul Rat.add Rat.sub Rat.inv Rat.ofScientific in
/-- Witness for C8 (amended) at a concrete committing run: 21 common days,
every portfolio fitted, the stale row pruned — every remaining regression
row names a catalog portfolio. -/
theorem reg_prune_on_commit_c8_witness :
    db2S.ff5_regressions.all
      (fun r => (PORTFOLIOS.map Prod.fst).contains r.portfolio_name) = true := by
  have h := reg_prune_on_commit_c8 fitS "t2" rawS dbS kS nS drS db2S rfl (by decide)
  rw [List.all_eq_true]
  intro r hr
  exact List.elem_eq_true_of_mem (h r hr)

end Spec2Proof
